import Mathlib

/-!
Shallow embedding of the os-brick Liberty initiator connector
(drivers/os_brick/openstack/liberty/initiator/connector.py) and proofs of
the specified properties about it.

Python string primitives are embedded first (splitlines, whitespace split,
substring containment, hex formatting), then the connector data model and
the operations the properties talk about.
-/

/-- Python str.startswith, by character-list prefix test. -/
def strStartsWith (s pre : String) : Bool :=
  pre.toList.isPrefixOf s.toList

/-- Splitting a character list at every position satisfying the
predicate, keeping empty pieces, as Python str.split with an explicit
separator does. -/
def splitOnPred (p : Char → Bool) : List Char → List (List Char)
  | [] => [[]]
  | x :: xs =>
    if p x then [] :: splitOnPred p xs
    else
      match splitOnPred p xs with
      | [] => [[x]]
      | h :: t => (x :: h) :: t

/-- Python str.split with a single-character separator: splits at every
occurrence and keeps empty pieces. -/
def pySplitOnChar (c : Char) (s : String) : List String :=
  (splitOnPred (fun x => x == c) s.toList).map String.mk

/-- Python str.splitlines restricted to newline separators: splits on the
newline character and drops a trailing empty piece, returning the empty
list for the empty string. -/
def pySplitLines (s : String) : List String :=
  if s = "" then []
  else
    let parts := pySplitOnChar '\n' s
    if parts.getLast? = some "" then parts.dropLast else parts

/-- Python str.split with no argument: splits on runs of whitespace and
never returns empty tokens. -/
def pySplitWs (s : String) : List String :=
  ((splitOnPred (fun c => c.isWhitespace) s.toList).filter (fun t => t ≠ [])).map String.mk

/-- Python str.upper, by mapping the character-level uppercase
conversion. -/
def pyToUpper (s : String) : String :=
  String.mk (s.toList.map Char.toUpper)

/-- Python str.lower, by mapping the character-level lowercase
conversion. -/
def pyToLower (s : String) : String :=
  String.mk (s.toList.map Char.toLower)

/-- Boolean contiguous-sublist test used to embed the Python substring
operator: the needle is a prefix of some suffix of the haystack. -/
def seqIsInside (needle : List Char) : List Char → Bool
  | [] => needle.isEmpty
  | c :: rest => needle.isPrefixOf (c :: rest) || seqIsInside needle rest

/-- Python substring containment: needle in hay. -/
def strContains (hay needle : String) : Bool :=
  seqIsInside needle.toList hay.toList

/-- Three-way zip truncating to the shortest list, embedding the Python
builtin zip applied to three sequences. -/
def zip3 : List α → List β → List γ → List (α × β × γ)
  | a :: as, b :: bs, c :: cs => (a, b, c) :: zip3 as bs cs
  | _, _, _ => []

/-- Sum of the squares 1^2 + 2^2 + ... + n^2. -/
def sumSquaresTo : Nat → Nat
  | 0 => 0
  | n + 1 => sumSquaresTo n + (n + 1) * (n + 1)

/-- Default number of device scan attempts
(DEVICE_SCAN_ATTEMPTS_DEFAULT in connector.py). -/
def DEVICE_SCAN_ATTEMPTS_DEFAULT : Nat := 3

/-- The iSCSI connection-properties fields used by target enumeration and
session management; a field holding none stands for an absent key in the
Python dict. -/
structure ConnProps where
  target_portal : Option String
  target_iqn : Option String
  target_lun : Option Nat
  target_portals : Option (List String)
  target_iqns : Option (List String)
  target_luns : Option (List Nat)
deriving Repr, DecidableEq

/-- Embedding of ISCSIConnector._get_all_targets: when all three plural
keys are present, zip the three arrays; otherwise build the single target
from the singular keys, with target_lun defaulting to 0. The singular keys
are accessed by plain indexing in Python, so their absence is a KeyError,
modelled as none. -/
def get_all_targets (cp : ConnProps) : Option (List (String × String × Nat)) :=
  match cp.target_portals, cp.target_iqns, cp.target_luns with
  | some ps, some qs, some ls => some (zip3 ps qs ls)
  | _, _, _ =>
    match cp.target_portal, cp.target_iqn with
    | some p, some q => some [(p, q, cp.target_lun.getD 0)]
    | _, _ => none

/-- Embedding of
ISCSIConnector._get_target_portals_from_iscsiadm_output: keep the lines
splitting into exactly two whitespace tokens whose second token starts
with the string iqn-dot, as pairs, in line order. -/
def get_target_portals_from_iscsiadm_output (output : String) : List (String × String) :=
  (pySplitLines output).filterMap (fun line =>
    match pySplitWs line with
    | [a, b] => if strStartsWith b "iqn." then some (a, b) else none
    | _ => none)

/-- Spec-side predicate for the discovery parser: the line splits into
exactly two whitespace-separated tokens and the second starts with the
IQN prefix. -/
def isTargetLine (line : String) : Bool :=
  (pySplitWs line).length == 2 && strStartsWith (((pySplitWs line)[1]?).getD "") "iqn."

/-- Spec-side pair extraction for a line accepted by isTargetLine. -/
def targetLinePair (line : String) : String × String :=
  (((pySplitWs line)[0]?).getD "", ((pySplitWs line)[1]?).getD "")

/-- Embedding of the multipath fan-out heuristic inside
ISCSIConnector.connect_volume (the branch taken when the caller gave no
target_iqns): compute the set of discovered portals and the set of
discovered portals carrying the caller-given IQN; when the two sets have
equal size, pair the given IQN with every discovered portal, otherwise
keep the discovered pairs. Python sets are modelled as
first-occurrence-deduplicated lists. -/
def multipath_fanout (main_iqn : String) (ips_iqns : List (String × String)) :
    List (String × String) :=
  let all_portals := (ips_iqns.map Prod.fst).dedup
  let match_portals := ((ips_iqns.filter (fun p => p.2 == main_iqn)).map Prod.fst).dedup
  if all_portals.length = match_portals.length then
    all_portals.map (fun ip => (ip, main_iqn))
  else
    ips_iqns

/-- The target pairs that the multipath branch of
ISCSIConnector.connect_volume logs in to: the discovered pairs, rewritten
by the fan-out heuristic exactly when the caller supplied no (truthy)
target_iqns value. -/
def multipath_login_targets (has_target_iqns : Bool) (main_iqn : String)
    (ips_iqns : List (String × String)) : List (String × String) :=
  if has_target_iqns then ips_iqns else multipath_fanout main_iqn ips_iqns

/-- The candidate device path for one target under the default iSCSI
transport, as synthesized by ISCSIConnector._get_device_path. -/
def iscsi_by_path_name (portal iqn : String) (lun : Nat) : String :=
  "/dev/disk/by-path/ip-" ++ portal ++ "-iscsi-" ++ iqn ++ "-lun-" ++ toString lun

/-- Embedding of ISCSIConnector._get_device_path for the default
transport: one fixed by-path name per target. -/
def get_device_path_default (cp : ConnProps) : Option (List String) :=
  (get_all_targets cp).map (fun ts => ts.map (fun t => iscsi_by_path_name t.1 t.2.1 t.2.2))

/-- Externally visible actions of the iSCSI disconnect path, in order. -/
inductive DisconnectAction where
  | removeScsiDevice (dev_name : String)
  | waitForVolumeRemoval (path : String)
  | logoutPortal (portal iqn : String)
deriving Repr, DecidableEq

/-- The prefix substring used by ISCSIConnector._disconnect_volume_iscsi
to recognize other device paths of the same target. -/
def iscsi_device_byname (portal iqn : String) : String :=
  "ip-" ++ portal ++ "-iscsi-" ++ iqn ++ "-lun-"

/-- Embedding of ISCSIConnector._disconnect_volume_iscsi for one target
under the default transport, as the ordered list of externally visible
actions. Inputs: the target triple, the kernel-name resolver
(get_name_from_path), the block devices reported by the driver, and the
filesystem-existence oracle. The logout (node.startup manual, --logout,
--op delete) is issued only when no reported block device under
/dev/disk/by-path/ contains the byname pattern and still exists. -/
def disconnect_volume_iscsi (portal iqn : String) (lun : Nat)
    (get_name_from_path : String → Option String)
    (block_devices : List String) (fs_exists : String → Bool) :
    List DisconnectAction :=
  let host_devices := [iscsi_by_path_name portal iqn lun]
  match host_devices with
  | [] => []
  | host_device :: _ =>
    let removal : List DisconnectAction :=
      match get_name_from_path host_device with
      | some dev_name =>
          [DisconnectAction.removeScsiDevice dev_name,
           DisconnectAction.waitForVolumeRemoval host_device]
      | none => []
    let byname := iscsi_device_byname portal iqn
    let devices := block_devices.filter (fun dev =>
      strContains dev byname && strStartsWith dev "/dev/disk/by-path/" && fs_exists dev)
    removal ++ (if devices.isEmpty then [DisconnectAction.logoutPortal portal iqn] else [])

/-- Result of the login phase of ISCSIConnector._connect_to_iscsi_portal:
whether a login command was issued, whether node.startup was set to
automatic, and the boolean return value. -/
structure LoginOutcome where
  loginIssued : Bool
  startupAutomatic : Bool
  result : Bool
deriving Repr, DecidableEq

/-- One line of iscsiadm -m session output: Python indexes tokens 2 and 3
of line.split with a single-space separator, raising IndexError (none)
when they are absent. -/
def parse_session_line (p : String) : Option (String × String) :=
  let toks := pySplitOnChar ' ' p
  match toks[2]?, toks[3]? with
  | some a, some b => some (a, b)
  | _, _ => none

/-- The session entries scanned by _connect_to_iscsi_portal: the lines of
the active-session listing that start with tcp-colon, each parsed into a
portal and an IQN. -/
def parse_session_portals (out : String) : Option (List (String × String)) :=
  ((pySplitLines out).filter (fun p => strStartsWith p "tcp:")).mapM parse_session_line

/-- Embedding of the login phase of
ISCSIConnector._connect_to_iscsi_portal. Inputs: the raw active-session
listing, the target portal and IQN, and the exit code the login command
would produce if issued. The login command runs with acceptable exit
codes 0 and 255; any other exit code raises and is caught, with 15
converted to success and everything else returning false. After a
non-failing login, node.startup is set to automatic and true is
returned; when a matching session already exists no login is issued and
true is returned. -/
def connect_to_iscsi_portal_login (sessionOut target_portal target_iqn : String)
    (loginExit : Nat) : Option LoginOutcome :=
  (parse_session_portals sessionOut).map (fun portals =>
    let stripped_portal := (pySplitOnChar ',' target_portal).headD ""
    let matching := portals.filter (fun s =>
      stripped_portal == (pySplitOnChar ',' s.1).headD "" && s.2 == target_iqn)
    if portals.isEmpty || matching.isEmpty then
      if loginExit == 0 || loginExit == 255 then
        LoginOutcome.mk true true true
      else if loginExit == 15 then
        LoginOutcome.mk true true true
      else
        LoginOutcome.mk true false false
    else
      LoginOutcome.mk false false true)

/-- Observable outcome of the device-materialization loop of
ISCSIConnector.connect_volume: number of rescans triggered, total time
slept, the device list reported by VolumeDeviceNotFound when raised, and
the first existing device otherwise. -/
structure IscsiPollOutcome where
  rescans : Nat
  sleepTotal : Nat
  failedDevices : Option (List String)
  found : Option String
deriving Repr, DecidableEq

/-- Embedding of the retry loop of ISCSIConnector.connect_volume against
a static filesystem oracle. Each iteration checks the attempt bound,
triggers one rescan, increments tries and sleeps tries squared time units
unless a path appeared. The fuel argument only bounds the recursion; the
loop itself stops via the tries bound first whenever
fuel = scan_attempts + 1 - tries. -/
def iscsi_poll_go (scan_attempts : Nat) (devs : List String) (ex : String → Bool)
    (fuel tries rescans sleepAcc : Nat) : IscsiPollOutcome :=
  if devs.all (fun x => !ex x) then
    if scan_attempts ≤ tries then
      IscsiPollOutcome.mk rescans sleepAcc (some devs) none
    else
      match fuel with
      | 0 => IscsiPollOutcome.mk rescans sleepAcc (some devs) none
      | fuel' + 1 =>
        if devs.all (fun x => !ex x) then
          iscsi_poll_go scan_attempts devs ex fuel' (tries + 1) (rescans + 1)
            (sleepAcc + (tries + 1) * (tries + 1))
        else
          IscsiPollOutcome.mk (rescans + 1) sleepAcc none (devs.find? ex)
  else
    IscsiPollOutcome.mk rescans sleepAcc none (devs.find? ex)

/-- The device-materialization loop of ISCSIConnector.connect_volume,
started at zero tries. -/
def iscsi_poll (scan_attempts : Nat) (devs : List String) (ex : String → Bool) :
    IscsiPollOutcome :=
  iscsi_poll_go scan_attempts devs ex (scan_attempts + 1) 0 0 0

/-- A Fibre Channel HBA descriptor as consumed by
FibreChannelConnector._get_pci_num; a none device_path models a dict
without the device_path key. -/
structure HBA where
  device_path : Option String
deriving Repr, DecidableEq

/-- Embedding of FibreChannelConnector._get_pci_num: split the device
path on slashes and return the component before the first component that
starts with net or host; Python index -1 wraps to the last component. -/
def get_pci_num (hba : HBA) : Option String :=
  match hba.device_path with
  | none => none
  | some dp =>
    let parts := pySplitOnChar '/' dp
    match parts.findIdx? (fun v => strStartsWith v "net" || strStartsWith v "host") with
    | none => none
    | some i => if i = 0 then parts.getLast? else parts[i - 1]?

/-- The target_wwn property can be a single string or a list of strings;
_get_possible_devices normalizes it to a list. -/
inductive WwnPorts where
  | str (s : String)
  | list (l : List String)
deriving Repr, DecidableEq

/-- Normalization of the wwnports argument performed at the top of
FibreChannelConnector._get_possible_devices. -/
def normalize_wwns : WwnPorts → List String
  | WwnPorts.str s => [s]
  | WwnPorts.list l => l

/-- The nested loop of FibreChannelConnector._get_possible_devices: for
every HBA with a resolvable PCI address, one pair per WWN, the WWN
lowercased and 0x-prefixed. -/
def possible_devices_loop (wwns : List String) : List HBA → List (String × String)
  | [] => []
  | hba :: rest =>
    (match get_pci_num hba with
     | some pci_num => wwns.map (fun wwn => (pci_num, "0x" ++ pyToLower wwn))
     | none => []) ++ possible_devices_loop wwns rest

/-- Embedding of FibreChannelConnector._get_possible_devices. -/
def get_possible_devices (hbas : List HBA) (wwnports : WwnPorts) : List (String × String) :=
  possible_devices_loop (normalize_wwns wwnports) hbas

/-- Embedding of FibreChannelConnector._get_host_devices: one fixed
by-path name per (pci, wwn) pair for the single target LUN. -/
def get_host_devices (possible_devs : List (String × String)) (lun : Nat) : List String :=
  possible_devs.map (fun pw =>
    "/dev/disk/by-path/pci-" ++ pw.1 ++ "-fc-" ++ pw.2 ++ "-lun-" ++ toString lun)

/-- Embedding of the _wait_for_device_discovery polling loop of
FibreChannelConnector.connect_volume against a static filesystem oracle:
the first existing candidate in scan order wins; otherwise the loop
rescans until the attempt budget is exhausted. The fuel argument only
bounds the recursion. -/
def fc_wait_for_device (scan_attempts : Nat) (devs : List String) (ex : String → Bool)
    (fuel tries : Nat) : Option String :=
  match devs.find? ex with
  | some d => some d
  | none =>
    if scan_attempts ≤ tries then none
    else if h : fuel = 0 then none
    else fc_wait_for_device scan_attempts devs ex (fuel - 1) (tries + 1)
termination_by fuel
decreasing_by
  omega

/-- Embedding of FibreChannelConnector.connect_volume with
use_multipath false: compute the candidate paths, fail with
NoFibreChannelHostsFound when there are none, poll for the first existing
path, and return it as the device path. -/
def fc_connect_volume (scan_attempts : Nat) (hbas : List HBA) (wwnports : WwnPorts)
    (lun : Nat) (ex : String → Bool) : Except String String :=
  let host_devices := get_host_devices (get_possible_devices hbas wwnports) lun
  if host_devices.isEmpty then
    Except.error "NoFibreChannelHostsFound"
  else
    match fc_wait_for_device scan_attempts host_devices ex (scan_attempts + 1) 0 with
    | some d => Except.ok d
    | none => Except.error "NoFibreChannelVolumeDeviceFound"

/-- The connector implementations that InitiatorConnector.factory can
return. -/
inductive ConnectorKind where
  | iscsiConn (iser : Bool)
  | fcConn
  | fcS390xConn
  | aoeConn
  | remoteFsConn (mount_type : String)
  | storPoolConn
  | localConn
  | huaweiConn
  | hgstConn
  | rbdConn
  | scaleIOConn
deriving Repr, DecidableEq

/-- Embedding of InitiatorConnector.factory: uppercase the protocol,
match it against the fixed enumeration, branch on the architecture for
Fibre Channel, and otherwise fail with the ValueError message naming the
uppercased protocol. -/
def factory (protocol arch : String) : Except String ConnectorKind :=
  let p := pyToUpper protocol
  if p = "ISCSI" ∨ p = "ISER" then Except.ok (ConnectorKind.iscsiConn (p == "ISER"))
  else if p = "FIBRE_CHANNEL" then
    if arch = "s390" ∨ arch = "s390x" then Except.ok ConnectorKind.fcS390xConn
    else Except.ok ConnectorKind.fcConn
  else if p = "AOE" then Except.ok ConnectorKind.aoeConn
  else if p = "NFS" ∨ p = "GLUSTERFS" ∨ p = "SCALITY" then
    Except.ok (ConnectorKind.remoteFsConn (pyToLower p))
  else if p = "STORPOOL" then Except.ok ConnectorKind.storPoolConn
  else if p = "LOCAL" then Except.ok ConnectorKind.localConn
  else if p = "HUAWEISDSHYPERVISOR" then Except.ok ConnectorKind.huaweiConn
  else if p = "HGST" then Except.ok ConnectorKind.hgstConn
  else if p = "RBD" then Except.ok ConnectorKind.rbdConn
  else if p = "SCALEIO" then Except.ok ConnectorKind.scaleIOConn
  else Except.error ("Invalid InitiatorConnector protocol specified " ++ p)

/-- The fixed protocol enumeration accepted by the factory. -/
def factoryProtocols : List String :=
  ["ISCSI", "ISER", "FIBRE_CHANNEL", "AOE", "NFS", "GLUSTERFS", "SCALITY",
   "STORPOOL", "LOCAL", "HUAWEISDSHYPERVISOR", "HGST", "RBD", "SCALEIO"]

/-- One lowercase hexadecimal digit. -/
def hexDigitChar (n : Nat) : Char :=
  if n < 10 then Char.ofNat (48 + n) else Char.ofNat (87 + n)

/-- Accumulator form of the lowercase hexadecimal rendering of a natural
number, most significant digit first. -/
def pyHexAux (n : Nat) (acc : List Char) : List Char :=
  if h : n < 16 then hexDigitChar n :: acc
  else pyHexAux (n / 16) (hexDigitChar (n % 16) :: acc)
termination_by n
decreasing_by
  exact Nat.div_lt_self (by omega) (by omega)

/-- Python percent-x formatting of a natural number: lowercase hex with
no prefix. -/
def pyHex (n : Nat) : String :=
  String.mk (pyHexAux n [])

/-- Python percent-0wx formatting: lowercase hex zero-padded on the left
to at least the given width. -/
def pyHexPad (width n : Nat) : String :=
  let s := pyHex n
  String.mk (List.replicate (width - s.length) '0') ++ s

/-- A Python value that is either a string or an integer, the return type
of FibreChannelConnectorS390X._get_lun_string. -/
inductive LunString where
  | str (s : String)
  | int (n : Nat)
deriving Repr, DecidableEq

/-- Embedding of FibreChannelConnectorS390X._get_lun_string: luns up to
0xffff are rendered as 0x, four padded hex digits and twelve zeros; luns
up to 0xffffffff as 0x, eight padded hex digits and eight zeros; larger
luns fall through to the integer 0 initializer. -/
def get_lun_string (lun : Nat) : LunString :=
  if lun ≤ 0xffff then
    LunString.str ("0x" ++ pyHexPad 4 lun ++ "000000000000")
  else if lun ≤ 0xffffffff then
    LunString.str ("0x" ++ pyHexPad 8 lun ++ "00000000")
  else
    LunString.int 0

/-- Spec-side predicate: an active-session entry matches the target when
its portal up to the first comma equals the target portal up to the first
comma and its IQN equals the target IQN. -/
def session_matches (target_portal target_iqn : String) (s : String × String) : Prop :=
  (pySplitOnChar ',' target_portal).headD "" = (pySplitOnChar ',' s.1).headD "" ∧ s.2 = target_iqn

instance (target_portal target_iqn : String) (s : String × String) :
    Decidable (session_matches target_portal target_iqn s) := by
  unfold session_matches
  infer_instance

/-- Sum of the squares (t+1)^2 + (t+2)^2 + ... + (t+k)^2, the sleep total
accumulated by the retry loop between tries t and t+k. -/
def sumSqRange : Nat → Nat → Nat
  | _, 0 => 0
  | t, k + 1 => (t + 1) * (t + 1) + sumSqRange (t + 1) k

lemma sumSqRange_succ_right (t : Nat) : ∀ k, sumSqRange t (k + 1) = sumSqRange t k + (t + k + 1) * (t + k + 1) := by
  intro k
  induction k generalizing t with
  | zero => simp [sumSqRange]
  | succ k ih =>
    have h1 : sumSqRange t (k + 2) = (t + 1) * (t + 1) + sumSqRange (t + 1) (k + 1) := rfl
    have h2 : sumSqRange t (k + 1) = (t + 1) * (t + 1) + sumSqRange (t + 1) k := rfl
    rw [h1, h2, ih (t + 1)]
    ring_nf

lemma sumSqRange_eq_sumSquaresTo (n : Nat) : sumSqRange 0 n = sumSquaresTo n := by
  induction n with
  | zero => rfl
  | succ n ih =>
    rw [sumSqRange_succ_right, ih]
    simp [sumSquaresTo]

lemma iscsi_poll_go_never_found (devs : List String) :
    ∀ k t r s, iscsi_poll_go (t + k) devs (fun _ => false) (k + 1) t r s =
      IscsiPollOutcome.mk (r + k) (s + sumSqRange t k) (some devs) none := by
  intro k
  induction k with
  | zero =>
    intro t r s
    simp [iscsi_poll_go, sumSqRange]
  | succ k ih =>
    intro t r s
    have hall : devs.all (fun x => !(fun _ : String => false) x) = true := by
      simp
    rw [iscsi_poll_go]
    simp only [hall, if_true]
    have hlt : ¬ (t + (k + 1) ≤ t) := by omega
    rw [if_neg hlt]
    have harr : t + (k + 1) = (t + 1) + k := by omega
    simp only [hall, if_true, harr]
    rw [ih (t + 1) (r + 1) (s + (t + 1) * (t + 1))]
    have h1 : r + 1 + k = r + (k + 1) := by omega
    have h2 : s + (t + 1) * (t + 1) + sumSqRange (t + 1) k = s + sumSqRange t (k + 1) := by
      have : sumSqRange t (k + 1) = (t + 1) * (t + 1) + sumSqRange (t + 1) k := rfl
      omega
    rw [h1, h2]

lemma iscsi_poll_never_found (scan_attempts : Nat) (devs : List String) :
    iscsi_poll scan_attempts devs (fun _ => false) =
      IscsiPollOutcome.mk scan_attempts (sumSquaresTo scan_attempts) (some devs) none := by
  have h := iscsi_poll_go_never_found devs scan_attempts 0 0 0
  simp only [Nat.zero_add] at h
  rw [iscsi_poll, h, sumSqRange_eq_sumSquaresTo]

lemma zip3_getElem? (ps : List α) :
    ∀ (qs : List β) (ls : List γ) (i : Nat) (a : α) (b : β) (c : γ),
      ps[i]? = some a → qs[i]? = some b → ls[i]? = some c →
      (zip3 ps qs ls)[i]? = some (a, b, c) := by
  induction ps with
  | nil => intro qs ls i a b c ha; simp at ha
  | cons p ps ih =>
    intro qs ls i a b c ha hb hc
    cases qs with
    | nil => simp at hb
    | cons q qs =>
      cases ls with
      | nil => simp at hc
      | cons l ls =>
        cases i with
        | zero =>
          simp at ha hb hc
          simp [zip3, ha, hb, hc]
        | succ i =>
          simp at ha hb hc
          simpa [zip3] using ih qs ls i a b c ha hb hc

lemma zip3_length (ps : List α) :
    ∀ (qs : List β) (ls : List γ),
      (zip3 ps qs ls).length = min (min ps.length qs.length) ls.length := by
  induction ps with
  | nil => intro qs ls; simp [zip3]
  | cons p ps ih =>
    intro qs ls
    cases qs with
    | nil => simp [zip3]
    | cons q qs =>
      cases ls with
      | nil => simp [zip3]
      | cons l ls =>
        simp only [zip3, List.length_cons, ih qs ls]
        omega

lemma isPrefixOf_self (l : List Char) : l.isPrefixOf l = true := by
  induction l with
  | nil => rfl
  | cons a as ih => simp [List.isPrefixOf, ih]

lemma seqIsInside_append_right (l : List Char) : ∀ pre, seqIsInside l (pre ++ l) = true := by
  intro pre
  induction pre with
  | nil =>
    cases l with
    | nil => rfl
    | cons c rest => simp [seqIsInside, isPrefixOf_self]
  | cons c cs ih =>
    simp [seqIsInside, ih]

lemma strContains_append_right (a b : String) : strContains (a ++ b) b = true := by
  have h : (a ++ b).toList = a.toList ++ b.toList := by simp
  rw [strContains, h, seqIsInside_append_right]

lemma parser_filterMap_eq (lines : List String) :
    lines.filterMap (fun line =>
        match pySplitWs line with
        | [a, b] => if strStartsWith b "iqn." then some (a, b) else none
        | _ => none) =
      (lines.filter (fun l => isTargetLine l)).map targetLinePair := by
  induction lines with
  | nil => rfl
  | cons l rest ih =>
    rw [List.filterMap_cons, List.filter_cons]
    rcases h : pySplitWs l with _ | ⟨a, _ | ⟨b, _ | ⟨c, t⟩⟩⟩
    · simp [isTargetLine, h, ih]
    · simp [isTargetLine, h, ih]
    · by_cases hs : strStartsWith b "iqn." = true
      · simp [isTargetLine, targetLinePair, h, hs, ih]
      · simp [isTargetLine, targetLinePair, h, hs, ih]
    · simp [isTargetLine, h, ih]

lemma pyHexAux_length_le :
    ∀ k n acc, n < 16 ^ k → 1 ≤ k → (pyHexAux n acc).length ≤ k + acc.length := by
  intro k
  induction k with
  | zero => intro n acc h h1; omega
  | succ k ih =>
    intro n acc h h1
    unfold pyHexAux
    split
    · simp
      omega
    · rename_i hn
      have hk : 1 ≤ k := by
        rcases Nat.eq_zero_or_pos k with hk0 | hk0
        · subst hk0
          simp at h
          omega
        · exact hk0
      have hdiv : n / 16 < 16 ^ k := by
        rw [Nat.div_lt_iff_lt_mul (by norm_num)]
        calc n < 16 ^ (k + 1) := h
        _ = 16 ^ k * 16 := by ring
      have hrec := ih (n / 16) (hexDigitChar (n % 16) :: acc) hdiv hk
      simp at hrec
      omega

lemma pyHex_length_le (k n : Nat) (h : n < 16 ^ k) (h1 : 1 ≤ k) :
    (pyHex n).length ≤ k := by
  have h2 := pyHexAux_length_le k n [] h h1
  simpa [pyHex] using h2

lemma pyHexPad_length (width n : Nat) (h : (pyHex n).length ≤ width) :
    (pyHexPad width n).length = width := by
  simp [pyHexPad]
  omega

/-- C6: iSCSI target enumeration: when target_portals, target_iqns and
target_luns are all present, the target sequence is the index-wise zip of
the three arrays (the i-th target is the triple of the i-th entries);
otherwise it is the single-element sequence built from target_portal and
target_iqn with target_lun defaulting to 0 when absent. -/
theorem get_all_targets_spec (cp : ConnProps) (ps qs : List String) (ls : List Nat)
    (p q : String) :
    (cp.target_portals = some ps → cp.target_iqns = some qs → cp.target_luns = some ls →
      get_all_targets cp = some (zip3 ps qs ls) ∧
      (∀ (i : Nat) (a b : String) (c : Nat), ps[i]? = some a → qs[i]? = some b → ls[i]? = some c →
        (zip3 ps qs ls)[i]? = some (a, b, c))) ∧
    ((cp.target_portals = none ∨ cp.target_iqns = none ∨ cp.target_luns = none) →
      cp.target_portal = some p → cp.target_iqn = some q →
      get_all_targets cp = some [(p, q, cp.target_lun.getD 0)]) := by
  constructor
  · intro h1 h2 h3
    refine ⟨?_, fun i a b c ha hb hc => zip3_getElem? ps qs ls i a b c ha hb hc⟩
    unfold get_all_targets
    rw [h1, h2, h3]
  · intro hnone hp hq
    unfold get_all_targets
    rcases hnone with h | h | h <;>
      rcases htps : cp.target_portals with _ | ps2 <;>
      rcases htis : cp.target_iqns with _ | qs2 <;>
      rcases htls : cp.target_luns with _ | ls2 <;>
      simp_all [hp, hq]

/-- Witness for C6: both enumeration branches at concrete properties. -/
theorem get_all_targets_spec_witness :
    get_all_targets
        (ConnProps.mk (some "10.0.0.5:3260") (some "iqn.a") none
          (some ["p1", "p2"]) (some ["q1", "q2"]) (some [1, 2])) =
      some (zip3 ["p1", "p2"] ["q1", "q2"] [1, 2]) ∧
    get_all_targets
        (ConnProps.mk (some "10.0.0.5:3260") (some "iqn.a") none
          none (some ["q"]) (some [1])) =
      some [("10.0.0.5:3260", "iqn.a", 0)] :=
  ⟨((get_all_targets_spec _ ["p1", "p2"] ["q1", "q2"] [1, 2] "x" "y").1 rfl rfl rfl).1,
   (get_all_targets_spec _ [] [] [] "10.0.0.5:3260" "iqn.a").2 (Or.inl rfl) rfl rfl⟩

/-- C9: when the three plural fields are present with unequal lengths,
target enumeration does not raise: it returns a list truncated to the
shortest of the three arrays. -/
theorem get_all_targets_truncates (cp : ConnProps) (ps qs : List String) (ls : List Nat)
    (h1 : cp.target_portals = some ps) (h2 : cp.target_iqns = some qs)
    (h3 : cp.target_luns = some ls) :
    ∃ ts, get_all_targets cp = some ts ∧
      ts.length = min (min ps.length qs.length) ls.length := by
  refine ⟨zip3 ps qs ls, ?_, zip3_length ps qs ls⟩
  unfold get_all_targets
  rw [h1, h2, h3]

/-- Witness for C9: two portals, three iqns, one lun give exactly one
target, with no error. -/
theorem get_all_targets_truncates_witness :
    ∃ ts, get_all_targets
        (ConnProps.mk none none none
          (some ["p1", "p2"]) (some ["q1", "q2", "q3"]) (some [7])) =
      some ts ∧ ts.length = min (min 2 3) 1 :=
  get_all_targets_truncates _ ["p1", "p2"] ["q1", "q2", "q3"] [7] rfl rfl rfl

/-- C7: the send-targets discovery parser returns exactly the lines that
split into two whitespace tokens with the second starting with the IQN
prefix, as pairs, in line order; all other lines are skipped. -/
theorem get_target_portals_spec (output : String) :
    get_target_portals_from_iscsiadm_output output =
      ((pySplitLines output).filter (fun l => isTargetLine l)).map targetLinePair := by
  unfold get_target_portals_from_iscsiadm_output
  exact parser_filterMap_eq (pySplitLines output)

/-- C10: the S390X LUN encoding gives an 18-character 0x-prefixed string
with 4 hex digits plus 12 zeros for luns up to 0xffff, 8 hex digits plus
8 zeros for luns up to 0xffffffff, and the integer 0 beyond that. -/
theorem get_lun_string_spec (lun : Nat) :
    (lun ≤ 0xffff →
      get_lun_string lun = LunString.str ("0x" ++ pyHexPad 4 lun ++ "000000000000") ∧
      (pyHexPad 4 lun).length = 4 ∧
      ("0x" ++ pyHexPad 4 lun ++ "000000000000").length = 18) ∧
    (0xffff < lun → lun ≤ 0xffffffff →
      get_lun_string lun = LunString.str ("0x" ++ pyHexPad 8 lun ++ "00000000") ∧
      (pyHexPad 8 lun).length = 8 ∧
      ("0x" ++ pyHexPad 8 lun ++ "00000000").length = 18) ∧
    (0xffffffff < lun → get_lun_string lun = LunString.int 0) := by
  refine ⟨fun h => ?_, fun h h2 => ?_, fun h => ?_⟩
  · have hlen : (pyHexPad 4 lun).length = 4 := by
      refine pyHexPad_length 4 lun (pyHex_length_le 4 lun (by norm_num; omega) (by norm_num))
    refine ⟨by unfold get_lun_string; rw [if_pos h], hlen, ?_⟩
    simp [String.length_append, hlen]
    decide
  · have hlen : (pyHexPad 8 lun).length = 8 := by
      refine pyHexPad_length 8 lun (pyHex_length_le 8 lun (by norm_num; omega) (by norm_num))
    refine ⟨by unfold get_lun_string; rw [if_neg (by omega), if_pos h2], hlen, ?_⟩
    simp [String.length_append, hlen]
    decide
  · unfold get_lun_string
    rw [if_neg (by omega), if_neg (by omega)]

/-- Witness for C10: the three magnitude regimes at concrete luns. -/
theorem get_lun_string_spec_witness :
    get_lun_string 1 = LunString.str ("0x" ++ pyHexPad 4 1 ++ "000000000000") ∧
    get_lun_string 74565 = LunString.str ("0x" ++ pyHexPad 8 74565 ++ "00000000") ∧
    get_lun_string 1099511627776 = LunString.int 0 :=
  ⟨((get_lun_string_spec 1).1 (by norm_num)).1,
   ((get_lun_string_spec 74565).2.1 (by norm_num) (by norm_num)).1,
   (get_lun_string_spec 1099511627776).2.2 (by norm_num)⟩

/-- C1 counterexample: with the default three scan attempts and a device
that never appears, the loop raises after 3 rescans having slept
1 + 4 + 9 = 14 time units, not the claimed 1 + 4 = 5: the loop increments
tries before sleeping, so the backoff sequence starts at 1, not 0. -/
theorem iscsi_poll_counterexample :
    (iscsi_poll DEVICE_SCAN_ATTEMPTS_DEFAULT
        [iscsi_by_path_name "10.0.0.5:3260" "iqn.2010-x:vol1" 0]
        (fun _ => false)).rescans = DEVICE_SCAN_ATTEMPTS_DEFAULT ∧
    (iscsi_poll DEVICE_SCAN_ATTEMPTS_DEFAULT
        [iscsi_by_path_name "10.0.0.5:3260" "iqn.2010-x:vol1" 0]
        (fun _ => false)).sleepTotal = 14 ∧
    sumSquaresTo (DEVICE_SCAN_ATTEMPTS_DEFAULT - 1) = 5 ∧ (14 : Nat) ≠ 5 := by
  have h := iscsi_poll_never_found DEVICE_SCAN_ATTEMPTS_DEFAULT
    [iscsi_by_path_name "10.0.0.5:3260" "iqn.2010-x:vol1" 0]
  rw [h]
  exact ⟨rfl, by decide, by decide, by decide⟩

/-- C1 (amended): when no candidate path ever exists, the connect loop
performs exactly scan_attempts rescans, raises VolumeDeviceNotFound
naming the candidate path set, and sleeps a total of the sum of i squared
for i from 1 to scan_attempts (backoff sequence 1, 4, 9, ...). -/
theorem iscsi_poll_never_found_spec (scan_attempts : Nat) (devs : List String) :
    iscsi_poll scan_attempts devs (fun _ => false) =
      IscsiPollOutcome.mk scan_attempts (sumSquaresTo scan_attempts) (some devs) none :=
  iscsi_poll_never_found scan_attempts devs

lemma disconnect_logout_mem (portal iqn : String) (lun : Nat)
    (nf : String → Option String) (bds : List String) (ex : String → Bool) :
    DisconnectAction.logoutPortal portal iqn ∈
        disconnect_volume_iscsi portal iqn lun nf bds ex ↔
      bds.filter (fun dev =>
        strContains dev (iscsi_device_byname portal iqn) &&
        strStartsWith dev "/dev/disk/by-path/" && ex dev) = [] := by
  unfold disconnect_volume_iscsi
  cases hn : nf (iscsi_by_path_name portal iqn lun) <;>
    by_cases hc : bds.filter (fun dev =>
        strContains dev (iscsi_device_byname portal iqn) &&
        strStartsWith dev "/dev/disk/by-path/" && ex dev) = [] <;>
    simp [hn, hc, List.isEmpty_iff]

/-- C3: non-multipath per-target iSCSI disconnect first removes the local
SCSI device node and waits for its disappearance, and the portal logout
is in the action trace if and only if no driver-reported block device
starts with the by-path prefix, contains the target byname pattern, and
still exists on the filesystem. -/
theorem disconnect_volume_iscsi_spec (portal iqn : String) (lun : Nat)
    (get_name_from_path : String → Option String) (block_devices : List String)
    (fs_exists : String → Bool) :
    (∀ dev_name, get_name_from_path (iscsi_by_path_name portal iqn lun) = some dev_name →
      (disconnect_volume_iscsi portal iqn lun get_name_from_path block_devices
          fs_exists).take 2 =
        [DisconnectAction.removeScsiDevice dev_name,
         DisconnectAction.waitForVolumeRemoval (iscsi_by_path_name portal iqn lun)]) ∧
    (DisconnectAction.logoutPortal portal iqn ∈
        disconnect_volume_iscsi portal iqn lun get_name_from_path block_devices fs_exists ↔
      ∀ dev ∈ block_devices,
        ¬(strStartsWith dev "/dev/disk/by-path/" = true ∧
          strContains dev (iscsi_device_byname portal iqn) = true ∧
          fs_exists dev = true)) := by
  constructor
  · intro dev_name h
    simp [disconnect_volume_iscsi, h]
  · rw [disconnect_logout_mem, List.filter_eq_nil_iff]
    constructor
    · intro h dev hdev hc
      exact h dev hdev (by simp [hc.1, hc.2.1, hc.2.2])
    · intro h dev hdev hb
      simp only [Bool.and_eq_true] at hb
      exact h dev hdev ⟨hb.1.2, hb.1.1, hb.2⟩

set_option maxRecDepth 8192 in
/-- Witness for C3: a second LUN of the same target still present among
the driver devices prevents the logout, while the removal actions still
lead the trace. -/
theorem disconnect_volume_iscsi_spec_witness :
    (disconnect_volume_iscsi "10.0.0.5:3260" "iqn.x" 1 (fun _ => some "sda")
        ["/dev/disk/by-path/ip-10.0.0.5:3260-iscsi-iqn.x-lun-2"] (fun _ => true)).take 2 =
      [DisconnectAction.removeScsiDevice "sda",
       DisconnectAction.waitForVolumeRemoval (iscsi_by_path_name "10.0.0.5:3260" "iqn.x" 1)] ∧
    DisconnectAction.logoutPortal "10.0.0.5:3260" "iqn.x" ∉
      disconnect_volume_iscsi "10.0.0.5:3260" "iqn.x" 1 (fun _ => some "sda")
        ["/dev/disk/by-path/ip-10.0.0.5:3260-iscsi-iqn.x-lun-2"] (fun _ => true) := by
  constructor
  · exact (disconnect_volume_iscsi_spec "10.0.0.5:3260" "iqn.x" 1 (fun _ => some "sda")
      ["/dev/disk/by-path/ip-10.0.0.5:3260-iscsi-iqn.x-lun-2"] (fun _ => true)).1 "sda" rfl
  · intro hmem
    have h := (disconnect_volume_iscsi_spec "10.0.0.5:3260" "iqn.x" 1 (fun _ => some "sda")
      ["/dev/disk/by-path/ip-10.0.0.5:3260-iscsi-iqn.x-lun-2"] (fun _ => true)).2.mp hmem
      "/dev/disk/by-path/ip-10.0.0.5:3260-iscsi-iqn.x-lun-2" (by simp)
    exact h ⟨by decide, by decide, rfl⟩

/-- C2: in multipath iSCSI connect without caller-supplied target_iqns,
when the set of discovered portals and the set of discovered portals
carrying the caller IQN have equal size, the login list becomes the
caller IQN paired with every discovered portal; otherwise the discovered
pairs are kept unchanged, and a login is attempted for every resulting
pair. -/
theorem multipath_fanout_spec (main_iqn : String) (ips_iqns : List (String × String)) :
    ((ips_iqns.map Prod.fst).toFinset.card =
        ((ips_iqns.filter (fun p => p.2 == main_iqn)).map Prod.fst).toFinset.card →
      ∀ pr : String × String,
        pr ∈ multipath_login_targets false main_iqn ips_iqns ↔
          (pr.2 = main_iqn ∧ pr.1 ∈ ips_iqns.map Prod.fst)) ∧
    ((ips_iqns.map Prod.fst).toFinset.card ≠
        ((ips_iqns.filter (fun p => p.2 == main_iqn)).map Prod.fst).toFinset.card →
      multipath_login_targets false main_iqn ips_iqns = ips_iqns) := by
  rw [List.card_toFinset, List.card_toFinset]
  constructor
  · intro hcard pr
    unfold multipath_login_targets multipath_fanout
    simp only [if_false, Bool.false_eq_true, if_neg (by simp : ¬ False)]
    rw [if_pos hcard]
    constructor
    · intro hpr
      rcases List.mem_map.mp hpr with ⟨ip, hip, hpr2⟩
      subst hpr2
      exact ⟨rfl, List.mem_dedup.mp hip⟩
    · intro ⟨h2, h1⟩
      apply List.mem_map.mpr
      refine ⟨pr.1, List.mem_dedup.mpr h1, ?_⟩
      rw [← h2]
  · intro hcard
    unfold multipath_login_targets multipath_fanout
    simp only [Bool.false_eq_true, if_neg (by simp : ¬ False)]
    rw [if_neg hcard]

/-- Witness for C2: one IQN on three portals fans out to a login on every
portal; three distinct IQNs keep the discovered pairs unchanged. -/
theorem multipath_fanout_spec_witness :
    (("10.0.0.2:3260", "iqn.main") ∈
      multipath_login_targets false "iqn.main"
        [("10.0.0.1:3260", "iqn.main"), ("10.0.0.2:3260", "iqn.main"),
         ("10.0.0.3:3260", "iqn.main")]) ∧
    multipath_login_targets false "iqn.main"
        [("10.0.0.1:3260", "iqn.a"), ("10.0.0.2:3260", "iqn.b"),
         ("10.0.0.3:3260", "iqn.c")] =
      [("10.0.0.1:3260", "iqn.a"), ("10.0.0.2:3260", "iqn.b"),
       ("10.0.0.3:3260", "iqn.c")] :=
  ⟨((multipath_fanout_spec "iqn.main"
        [("10.0.0.1:3260", "iqn.main"), ("10.0.0.2:3260", "iqn.main"),
         ("10.0.0.3:3260", "iqn.main")]).1
      (by rw [List.card_toFinset, List.card_toFinset]; decide)
      ("10.0.0.2:3260", "iqn.main")).mpr ⟨rfl, by decide⟩,
   (multipath_fanout_spec "iqn.main"
        [("10.0.0.1:3260", "iqn.a"), ("10.0.0.2:3260", "iqn.b"),
         ("10.0.0.3:3260", "iqn.c")]).2
      (by rw [List.card_toFinset, List.card_toFinset]; decide)⟩

lemma session_pred_iff (target_portal target_iqn : String) (s : String × String) :
    ((pySplitOnChar ',' target_portal).headD "" == (pySplitOnChar ',' s.1).headD "" &&
        s.2 == target_iqn) = true ↔
      session_matches target_portal target_iqn s := by
  simp [session_matches, Bool.and_eq_true]

lemma login_condition_iff (target_portal target_iqn : String)
    (portals : List (String × String)) :
    (portals.isEmpty || (portals.filter (fun s =>
        (pySplitOnChar ',' target_portal).headD "" == (pySplitOnChar ',' s.1).headD "" &&
        s.2 == target_iqn)).isEmpty) = true ↔
      ∀ s ∈ portals, ¬ session_matches target_portal target_iqn s := by
  rw [Bool.or_eq_true, List.isEmpty_iff, List.isEmpty_iff, List.filter_eq_nil_iff]
  constructor
  · intro h s hs hm
    rcases h with h | h
    · subst h
      simp at hs
    · exact h s hs ((session_pred_iff target_portal target_iqn s).mpr hm)
  · intro h
    right
    intro s hs hpred
    exact h s hs ((session_pred_iff target_portal target_iqn s).mp hpred)

/-- C4 counterexample: with no active sessions a login is issued; when it
fails with exit code 255 (not 15), the code still returns True and marks
node.startup automatic, because 255 is in the acceptable exit code set of
the login command, contradicting the claim that any non-15 failure exit
code returns False. -/
theorem connect_to_iscsi_portal_login_counterexample :
    connect_to_iscsi_portal_login "" "10.0.0.5:3260" "iqn.2010-x:vol1" 255 =
      some (LoginOutcome.mk true true true) ∧ (255 : Nat) ≠ 15 ∧ (255 : Nat) ≠ 0 := by
  exact ⟨by decide, by decide, by decide⟩

/-- C4 (amended): a login is issued exactly when no parsed tcp session
entry matches the target portal (up to the first comma) and IQN; a login
raising exit code 15 is treated as a successful login (startup automatic,
True returned); a login raising any exit code outside the accepted set
0 and 255 and other than 15 returns False rather than raising; exit codes
0 and 255 are accepted outright as successful logins. -/
theorem connect_to_iscsi_portal_login_spec (sessionOut target_portal target_iqn : String)
    (loginExit : Nat) (portals : List (String × String))
    (hparse : parse_session_portals sessionOut = some portals) :
    ∃ oc, connect_to_iscsi_portal_login sessionOut target_portal target_iqn loginExit =
        some oc ∧
      (oc.loginIssued = true ↔ ∀ s ∈ portals, ¬ session_matches target_portal target_iqn s) ∧
      (oc.loginIssued = false → oc.result = true ∧ oc.startupAutomatic = false) ∧
      (oc.loginIssued = true → loginExit = 15 → oc.result = true ∧ oc.startupAutomatic = true) ∧
      (oc.loginIssued = true → loginExit ≠ 0 → loginExit ≠ 15 → loginExit ≠ 255 →
        oc.result = false ∧ oc.startupAutomatic = false) ∧
      (oc.loginIssued = true → (loginExit = 0 ∨ loginExit = 255) →
        oc.result = true ∧ oc.startupAutomatic = true) := by
  unfold connect_to_iscsi_portal_login
  rw [hparse]
  simp only [Option.map_some']
  by_cases hc : (portals.isEmpty || (portals.filter (fun s =>
      (pySplitOnChar ',' target_portal).headD "" == (pySplitOnChar ',' s.1).headD "" &&
      s.2 == target_iqn)).isEmpty) = true
  · rw [if_pos hc]
    by_cases h0 : (loginExit == 0 || loginExit == 255) = true
    · rw [if_pos h0]
      simp only [Bool.or_eq_true, beq_iff_eq] at h0
      refine ⟨LoginOutcome.mk true true true, rfl, ?_, ?_, ?_, ?_, ?_⟩
      · simpa using (login_condition_iff target_portal target_iqn portals).mp hc
      · intro h; simp at h
      · intro _ _; exact ⟨rfl, rfl⟩
      · intro _ hne0 _ hne255
        rcases h0 with h0 | h0
        · exact absurd h0 hne0
        · exact absurd h0 hne255
      · intro _ _; exact ⟨rfl, rfl⟩
    · rw [if_neg h0]
      simp only [Bool.or_eq_true, beq_iff_eq, not_or] at h0
      by_cases h15 : (loginExit == 15) = true
      · rw [if_pos h15]
        refine ⟨LoginOutcome.mk true true true, rfl, ?_, ?_, ?_, ?_, ?_⟩
        · simpa using (login_condition_iff target_portal target_iqn portals).mp hc
        · intro h; simp at h
        · intro _ _; exact ⟨rfl, rfl⟩
        · intro _ _ hne15 _
          exact absurd (by simpa using h15) hne15
        · intro _ hor
          rcases hor with h | h
          · exact absurd h h0.1
          · exact absurd h h0.2
      · rw [if_neg h15]
        refine ⟨LoginOutcome.mk true false false, rfl, ?_, ?_, ?_, ?_, ?_⟩
        · simpa using (login_condition_iff target_portal target_iqn portals).mp hc
        · intro h; simp at h
        · intro _ h
          exact absurd h (by simpa using h15)
        · intro _ _ _ _; exact ⟨rfl, rfl⟩
        · intro _ hor
          rcases hor with h | h
          · exact absurd h h0.1
          · exact absurd h h0.2
  · rw [if_neg hc]
    refine ⟨LoginOutcome.mk false false true, rfl, ?_, ?_, ?_, ?_, ?_⟩
    · constructor
      · intro h; simp at h
      · intro h
        exact absurd ((login_condition_iff target_portal target_iqn portals).mpr h) hc
    · intro _; exact ⟨rfl, rfl⟩
    · intro h; simp at h
    · intro h; simp at h
    · intro h; simp at h

/-- Witness for C4 (amended): a listing with one non-matching session
still issues a login, and exit code 15 yields a successful result with
automatic startup. -/
theorem connect_to_iscsi_portal_login_spec_witness :
    ∃ oc, connect_to_iscsi_portal_login "tcp: [1] 10.0.0.1:3260,1 iqn.other"
        "10.0.0.5:3260" "iqn.x" 15 = some oc ∧
      (oc.loginIssued = true ↔
        ∀ s ∈ [("10.0.0.1:3260,1", "iqn.other")],
          ¬ session_matches "10.0.0.5:3260" "iqn.x" s) ∧
      (oc.loginIssued = false → oc.result = true ∧ oc.startupAutomatic = false) ∧
      (oc.loginIssued = true → (15 : Nat) = 15 → oc.result = true ∧ oc.startupAutomatic = true) ∧
      (oc.loginIssued = true → (15 : Nat) ≠ 0 → (15 : Nat) ≠ 15 → (15 : Nat) ≠ 255 →
        oc.result = false ∧ oc.startupAutomatic = false) ∧
      (oc.loginIssued = true → ((15 : Nat) = 0 ∨ (15 : Nat) = 255) →
        oc.result = true ∧ oc.startupAutomatic = true) :=
  connect_to_iscsi_portal_login_spec "tcp: [1] 10.0.0.1:3260,1 iqn.other"
    "10.0.0.5:3260" "iqn.x" 15 [("10.0.0.1:3260,1", "iqn.other")] (by decide)

lemma possible_devices_loop_length (wwns : List String) :
    ∀ hbas : List HBA, (possible_devices_loop wwns hbas).length =
      (hbas.filterMap get_pci_num).length * wwns.length := by
  intro hbas
  induction hbas with
  | nil => simp [possible_devices_loop]
  | cons hba rest ih =>
    cases h : get_pci_num hba with
    | none =>
      simp only [possible_devices_loop, h, List.filterMap_cons, List.nil_append]
      exact ih
    | some pci =>
      simp only [possible_devices_loop, h, List.filterMap_cons, List.length_append,
        List.length_map, List.length_cons, ih]
      ring

lemma possible_devices_loop_mem (wwns : List String) (pw : String × String) :
    ∀ hbas : List HBA, pw ∈ possible_devices_loop wwns hbas →
      pw.1 ∈ hbas.filterMap get_pci_num ∧ ∃ w ∈ wwns, pw.2 = "0x" ++ pyToLower w := by
  intro hbas
  induction hbas with
  | nil => simp [possible_devices_loop]
  | cons hba rest ih =>
    intro hmem
    simp only [possible_devices_loop] at hmem
    rcases List.mem_append.mp hmem with hm | hm
    · cases h : get_pci_num hba with
      | none => rw [h] at hm; simp at hm
      | some pci =>
        rw [h] at hm
        rcases List.mem_map.mp hm with ⟨w, hw, hpw⟩
        refine ⟨?_, w, hw, ?_⟩
        · simp only [List.filterMap_cons, h]
          rw [← hpw]
          exact List.mem_cons_self pci _
        · rw [← hpw]
    · have hrec := ih hm
      refine ⟨?_, hrec.2⟩
      cases h : get_pci_num hba <;>
        simp [List.filterMap_cons, h, hrec.1]

/-- C5: the Fibre Channel candidate computation yields exactly one
candidate per (HBA with a resolvable PCI address, target WWN) pair, each
path having the fixed pci/fc/lun by-path form with the WWN lowercased and
0x-prefixed, and non-multipath connect_volume returns the first candidate
found to exist. -/
theorem fc_possible_devices_spec (scan_attempts : Nat) (hbas : List HBA)
    (wwns : List String) (lun : Nat) (ex : String → Bool) :
    (get_possible_devices hbas (WwnPorts.list wwns)).length =
      (hbas.filterMap get_pci_num).length * wwns.length ∧
    (∀ pw ∈ get_possible_devices hbas (WwnPorts.list wwns),
      pw.1 ∈ hbas.filterMap get_pci_num ∧ ∃ w ∈ wwns, pw.2 = "0x" ++ pyToLower w) ∧
    get_host_devices (get_possible_devices hbas (WwnPorts.list wwns)) lun =
      (get_possible_devices hbas (WwnPorts.list wwns)).map (fun pw =>
        "/dev/disk/by-path/pci-" ++ pw.1 ++ "-fc-" ++ pw.2 ++ "-lun-" ++ toString lun) ∧
    (∀ d, (get_host_devices (get_possible_devices hbas (WwnPorts.list wwns)) lun).find? ex =
        some d →
      fc_connect_volume scan_attempts hbas (WwnPorts.list wwns) lun ex = Except.ok d) := by
  refine ⟨possible_devices_loop_length wwns hbas,
    fun pw hpw => possible_devices_loop_mem wwns pw hbas hpw, rfl, ?_⟩
  intro d hd
  unfold fc_connect_volume
  have hne : get_host_devices (get_possible_devices hbas (WwnPorts.list wwns)) lun ≠ [] := by
    intro hnil
    rw [hnil] at hd
    simp at hd
  rw [if_neg (by simp [List.isEmpty_iff, hne])]
  unfold fc_wait_for_device
  rw [hd]

set_option maxRecDepth 8192 in
/-- Witness for C5: one HBA at PCI 0000:05:00.3 and two WWNs give two
candidate paths, and non-multipath connect returns the one that exists. -/
theorem fc_possible_devices_spec_witness :
    (get_possible_devices
        [HBA.mk (some "/sys/devices/pci0000:00/0000:00:03.0/0000:05:00.3/host2/fc_host/host2")]
        (WwnPorts.list ["5000abc1", "5000abc2"])).length =
      ([HBA.mk (some "/sys/devices/pci0000:00/0000:00:03.0/0000:05:00.3/host2/fc_host/host2")].filterMap
          get_pci_num).length * 2 ∧
    fc_connect_volume 3
        [HBA.mk (some "/sys/devices/pci0000:00/0000:00:03.0/0000:05:00.3/host2/fc_host/host2")]
        (WwnPorts.list ["5000abc1", "5000abc2"]) 1
        (fun p => p == "/dev/disk/by-path/pci-0000:05:00.3-fc-0x5000abc2-lun-1") =
      Except.ok "/dev/disk/by-path/pci-0000:05:00.3-fc-0x5000abc2-lun-1" :=
  ⟨(fc_possible_devices_spec 3
      [HBA.mk (some "/sys/devices/pci0000:00/0000:00:03.0/0000:05:00.3/host2/fc_host/host2")]
      ["5000abc1", "5000abc2"] 1
      (fun p => p == "/dev/disk/by-path/pci-0000:05:00.3-fc-0x5000abc2-lun-1")).1,
   (fc_possible_devices_spec 3
      [HBA.mk (some "/sys/devices/pci0000:00/0000:00:03.0/0000:05:00.3/host2/fc_host/host2")]
      ["5000abc1", "5000abc2"] 1
      (fun p => p == "/dev/disk/by-path/pci-0000:05:00.3-fc-0x5000abc2-lun-1")).2.2.2
      "/dev/disk/by-path/pci-0000:05:00.3-fc-0x5000abc2-lun-1" (by decide)⟩

/-- C8 counterexample: an unknown lowercase protocol string is reported
in uppercase: the error message for protocol foo names FOO and does not
contain the caller-supplied string foo. -/
theorem factory_counterexample :
    factory "foo" "x86_64" =
      Except.error "Invalid InitiatorConnector protocol specified FOO" ∧
    strContains "Invalid InitiatorConnector protocol specified FOO" "foo" = false := by
  exact ⟨rfl, by decide⟩

/-- C8 (amended): the factory matches the protocol case-insensitively
against the fixed enumeration; FIBRE_CHANNEL with architecture s390 or
s390x selects the S390X variant and otherwise the standard FC connector;
any protocol whose uppercase form is outside the enumeration fails with
an error whose message names the uppercased protocol value. -/
theorem factory_spec (p1 p2 protocol arch : String) :
    (pyToUpper p1 = pyToUpper p2 → factory p1 arch = factory p2 arch) ∧
    (pyToUpper protocol = "FIBRE_CHANNEL" →
      ((arch = "s390" ∨ arch = "s390x") →
        factory protocol arch = Except.ok ConnectorKind.fcS390xConn) ∧
      (arch ≠ "s390" → arch ≠ "s390x" →
        factory protocol arch = Except.ok ConnectorKind.fcConn)) ∧
    (pyToUpper protocol ∉ factoryProtocols →
      factory protocol arch =
        Except.error ("Invalid InitiatorConnector protocol specified " ++ pyToUpper protocol) ∧
      strContains ("Invalid InitiatorConnector protocol specified " ++ pyToUpper protocol)
        (pyToUpper protocol) = true) := by
  refine ⟨?_, ?_, ?_⟩
  · intro h
    unfold factory
    rw [h]
  · intro hfc
    constructor
    · intro harch
      simp only [factory, hfc]
      rw [if_neg (by decide), if_pos trivial, if_pos harch]
    · intro h1 h2
      simp only [factory, hfc]
      rw [if_neg (by decide), if_pos trivial, if_neg (by simp [h1, h2])]
  · intro hmem
    simp only [factoryProtocols, List.mem_cons, List.not_mem_nil, or_false, not_or] at hmem
    obtain ⟨h1, h2, h3, h4, h5, h6, h7, h8, h9, h10, h11, h12, h13⟩ := hmem
    simp only [factory]
    rw [if_neg (by simp [h1, h2]), if_neg h3, if_neg h4, if_neg (by simp [h5, h6, h7]),
      if_neg h8, if_neg h9, if_neg h10, if_neg h11, if_neg h12, if_neg h13]
    exact ⟨rfl, strContains_append_right _ _⟩

set_option maxRecDepth 8192 in
/-- Witness for C8 (amended): mixed-case iscsi equals lowercase iscsi,
fibre_channel branches on the architecture, and an unknown protocol xyz
is reported as XYZ. -/
theorem factory_spec_witness :
    factory "IsCsI" "x86_64" = factory "iscsi" "x86_64" ∧
    factory "fibre_channel" "s390" = Except.ok ConnectorKind.fcS390xConn ∧
    factory "fibre_channel" "x86_64" = Except.ok ConnectorKind.fcConn ∧
    factory "xyz" "x86_64" =
      Except.error ("Invalid InitiatorConnector protocol specified " ++ pyToUpper "xyz") ∧
    strContains ("Invalid InitiatorConnector protocol specified " ++ pyToUpper "xyz")
      (pyToUpper "xyz") = true :=
  ⟨(factory_spec "IsCsI" "iscsi" "x" "y").1 (by decide),
   ((factory_spec "a" "b" "fibre_channel" "s390").2.1 (by decide)).1 (Or.inl rfl),
   ((factory_spec "a" "b" "fibre_channel" "x86_64").2.1 (by decide)).2
     (by decide) (by decide),
   ((factory_spec "a" "b" "xyz" "x86_64").2.2 (by decide)).1,
   ((factory_spec "a" "b" "xyz" "x86_64").2.2 (by decide)).2⟩
